import Mathlib

/-!
Verification development for the `greed` Telegram shop bot.

The definitions below are a shallow embedding of the repository's Python
sources (`worker.py`, `core.py`, `database.py`, `utils/menu_state.py`),
translated function by function.  Machine integers are modelled as `Int`
(Python integers are unbounded), the SQLAlchemy session as an explicit
pair of a committed and an in-memory database state, and the per-chat
update queue as a list of queue items consumed recursively.
-/

namespace Greed

/-! ## Payment fee computation (worker.py, `Worker.__get_total_fee`) -/

/-- Model of `Worker.__get_total_fee` (worker.py lines 806-814):
`fee_percentage = cfg.fee_percentage / 100`, `total_fee = amount *
fee_percentage + fee_fixed`; the fee is returned if positive, otherwise 0.
Python evaluates this with exact `/` on configuration numbers; it is
modelled over `ℚ`. -/
def getTotalFee (amount feePercentage feeFixed : ℚ) : ℚ :=
  let fee_percentage := feePercentage / 100
  let total_fee := amount * fee_percentage + feeFixed
  if total_fee > 0 then total_fee
  else 0

/-! ## Queue items and the receive/wait primitives (worker.py lines 70-381) -/

/-- A photo payload carried by a message (opaque to the core). -/
structure PhotoSize where
  fileId : String
deriving DecidableEq, Repr

/-- A successful-payment notice as delivered by the transport
(`telegram.SuccessfulPayment`): the confirmed charged amount and the
provider charge identifiers. -/
structure SuccessfulPayment where
  totalAmount : Int
  telegramPaymentChargeId : String
  providerPaymentChargeId : String
deriving DecidableEq, Repr

/-- An inbound message: optional text, optional photo list, optional
successful-payment payload (worker.py reads `update.message.text`,
`update.message.photo`, `update.message.successful_payment`). -/
structure Message where
  text : Option String
  photo : Option (List PhotoSize)
  successfulPayment : Option SuccessfulPayment
deriving DecidableEq, Repr

/-- A pre-checkout query (`telegram.PreCheckoutQuery`): the sender and the
invoice payload it carries. -/
structure PreCheckoutQuery where
  fromUserId : Int
  invoicePayload : String
deriving DecidableEq, Repr

/-- An inline-keyboard callback (`telegram.CallbackQuery`): the callback
data string and the id of the message the button was attached to. -/
structure CallbackQuery where
  data : String
  messageId : Int
deriving DecidableEq, Repr

/-- A `telegram.Update`: at most one of the payloads is populated. -/
structure Update where
  message : Option Message
  preCheckoutQuery : Option PreCheckoutQuery
  callbackQuery : Option CallbackQuery
deriving DecidableEq, Repr

/-- Model of `StopSignal` (worker.py lines 70-74): sent to the worker when the
conversation has to be stopped abnormally. -/
structure StopSignal where
  reason : String
deriving DecidableEq, Repr

/-- An item of the worker's queue: a `StopSignal`, a `CancelSignal`
(worker.py lines 77-79) or a transport update. -/
inductive QItem where
  | stopSignal (s : StopSignal)
  | cancelSignal
  | update (u : Update)
deriving DecidableEq, Repr

/-- Outcome of one blocked receive. -/
inductive RecvResult where
  | stopped (reason : String)
  | got (item : QItem)
deriving DecidableEq, Repr

/-- Modelled from the spec: `Worker.__graceful_stop` is invoked at
worker.py lines 221 and 225 but its definition is not among the provided
sources.  Per the spec (§4.2 `stop(reason)`), it performs a clean
wind-down and the worker exits; control never returns to the suspension
point, so a receive that reaches it yields a `stopped` outcome. -/
def gracefulStop (s : StopSignal) : RecvResult :=
  RecvResult.stopped s.reason

/-- Model of `Worker.__receive_next_update` (worker.py lines 212-227): pop from the
queue with the configured timeout — `none` models the timeout expiring
with nothing received — and gracefully stop on timeout or on a
`StopSignal`; any other item is returned to the caller. -/
def receiveNextUpdate : Option QItem → RecvResult
  | none => gracefulStop { reason := "timeout" }
  | some (QItem.stopSignal s) => gracefulStop s
  | some item => RecvResult.got item

/-- Outcome of a typed wait. -/
inductive WaitResult (α : Type) where
  | matched (a : α)
  | cancelled
  | stopped (reason : String)
deriving DecidableEq, Repr

/-- Model of `Worker.__wait_for_photo` (worker.py lines 335-357): drain the queue;
return a `CancelSignal` only when `cancellable`, otherwise swallow it;
skip updates without a message or without a photo; return the photo list
on a match.  The queue running out models the conversation timeout at the
next blocked receive. -/
def waitForPhoto (cancellable : Bool) : List QItem → WaitResult (List PhotoSize)
  | [] => WaitResult.stopped "timeout"
  | q :: rest =>
    match receiveNextUpdate (some q) with
    | RecvResult.stopped r => WaitResult.stopped r
    | RecvResult.got QItem.cancelSignal =>
      if cancellable then WaitResult.cancelled
      else waitForPhoto cancellable rest
    | RecvResult.got (QItem.stopSignal s) => WaitResult.stopped s.reason
    | RecvResult.got (QItem.update u) =>
      match u.message with
      | none => waitForPhoto cancellable rest
      | some m =>
        match m.photo with
        | none => waitForPhoto cancellable rest
        | some photos => WaitResult.matched photos

/-- Model of `Worker.__wait_for_successfulpayment` (worker.py lines 310-333): same
drain discipline, matching on `update.message.successful_payment`. -/
def waitForSuccessfulPayment (cancellable : Bool) :
    List QItem → WaitResult SuccessfulPayment
  | [] => WaitResult.stopped "timeout"
  | q :: rest =>
    match receiveNextUpdate (some q) with
    | RecvResult.stopped r => WaitResult.stopped r
    | RecvResult.got QItem.cancelSignal =>
      if cancellable then WaitResult.cancelled
      else waitForSuccessfulPayment cancellable rest
    | RecvResult.got (QItem.stopSignal s) => WaitResult.stopped s.reason
    | RecvResult.got (QItem.update u) =>
      match u.message with
      | none => waitForSuccessfulPayment cancellable rest
      | some m =>
        match m.successfulPayment with
        | none => waitForSuccessfulPayment cancellable rest
        | some payment => WaitResult.matched payment

/-! ## Products and the in-memory cart (database.py `Product`, worker.py
`Worker.__order_menu` lines 437-635) -/

/-- Model of `database.Product` (database.py lines 50-66): a catalog entry; a
`none` price means "not purchasable"; `deleted` soft-deletes it. -/
structure Product where
  id : Int
  name : String
  description : String
  price : Option Int
  deleted : Bool
deriving DecidableEq, Repr

/-- One line of the worker's cart: the displayed product and the selected
quantity (worker.py line 453 initialises it to `[product, 0]`). -/
structure CartLine where
  product : Product
  quantity : Int
deriving DecidableEq, Repr

/-- The cart of `Worker.__order_menu`: a Python dict keyed by the
message id of the product message (worker.py lines 442-444), keys unique. -/
abbrev Cart := List (Int × CartLine)

/-- Model of `cart.get(message_id)` on the Python dict. -/
def cartGet (cart : Cart) (messageId : Int) : Option CartLine :=
  (cart.find? (fun e => e.1 = messageId)).map Prod.snd

/-- In-place mutation of the line stored under `messageId`, as done by
`cart[callback.message.message_id][1] += 1` and `-= 1`. -/
def cartModify (cart : Cart) (messageId : Int) (f : CartLine → CartLine) : Cart :=
  cart.map (fun e => if e.1 = messageId then (e.1, f e.2) else e)

/-- Model of `Worker.__get_cart_value` (worker.py lines 620-625):
`value += cart[product][0].price * cart[product][1]` over every cart
entry.  Entries always carry a price: products with a `none` price are
never added to a cart (worker.py lines 447-449), so the `getD 0` default
is never exercised on carts the code builds. -/
def getCartValue (cart : Cart) : Int :=
  (cart.map (fun e => e.2.product.price.getD 0 * e.2.quantity)).sum

/-- What one iteration of the `__order_menu` input loop does after a
callback is received (worker.py lines 477-579). -/
inductive CartLoopStep where
  | exitCancel
  | exitDone
  | continueLoop (cart : Cart)
deriving DecidableEq, Repr

/-- One iteration of the `while True` cart loop of `Worker.__order_menu`
(worker.py lines 477-579) applied to the received `CallbackQuery`:
`cart_cancel` returns, `cart_add` increments the referenced line
(skipping unknown message ids, lines 487-489), `cart_remove` decrements
only when the quantity is positive (lines 531-539), `cart_done` breaks
out, and any other callback data falls through and keeps waiting. -/
def cartCallbackStep (cart : Cart) (cb : CallbackQuery) : CartLoopStep :=
  if cb.data = "cart_cancel" then
    CartLoopStep.exitCancel
  else if cb.data = "cart_add" then
    match cartGet cart cb.messageId with
    | none => CartLoopStep.continueLoop cart
    | some _ =>
      CartLoopStep.continueLoop
        (cartModify cart cb.messageId
          (fun l => { l with quantity := l.quantity + 1 }))
  else if cb.data = "cart_remove" then
    match cartGet cart cb.messageId with
    | none => CartLoopStep.continueLoop cart
    | some l =>
      if l.quantity > 0 then
        CartLoopStep.continueLoop
          (cartModify cart cb.messageId
            (fun l => { l with quantity := l.quantity - 1 }))
      else
        CartLoopStep.continueLoop cart
  else if cb.data = "cart_done" then
    CartLoopStep.exitDone
  else
    CartLoopStep.continueLoop cart

/-! ## Database rows and the SQLAlchemy session (database.py, one user in
focus: the worker's session only ever touches `self.user`) -/

/-- Model of `database.Transaction` (database.py lines 68-92), the fields the
worker writes; timestamps are omitted (no claim concerns them). -/
structure Txn where
  value : Int
  provider : Option String
  providerChargeId : Option String
  telegramChargeId : Option String
  refunded : Bool
  orderId : Option Int
deriving DecidableEq, Repr

/-- Model of `database.Order` (database.py lines 94-115), the fields the checkout
writes. -/
structure OrderRow where
  orderId : Int
  notes : String
deriving DecidableEq, Repr

/-- Model of `database.OrderItem` (database.py lines 117-130); `quantity` defaults
to 1 and the worker never overrides it. -/
structure OrderItemRow where
  productId : Int
  orderId : Int
  quantity : Int
deriving DecidableEq, Repr

/-- The visible database state for the worker's user: the `credit` column
(database.py line 36) and the user's rows of the three ledger tables. -/
structure DBState where
  credit : Int
  transactions : List Txn
  orders : List OrderRow
  orderItems : List OrderItemRow
deriving DecidableEq, Repr

/-- The sum of the user's persisted transaction values. -/
def txnSum (s : DBState) : Int :=
  (s.transactions.map Txn.value).sum

/-- A SQLAlchemy session bound to the worker: the last committed database
state and the session's current in-memory state (pending adds and
attribute changes live in `current` until `commit`). -/
structure Sess where
  committed : DBState
  current : DBState
deriving DecidableEq, Repr

/-- Model of `session.commit()`: flush and commit every pending change. -/
def commitSess (s : Sess) : Sess :=
  { committed := s.current, current := s.current }

/-- Model of `session.rollback()`: discard every uncommitted change. -/
def rollbackSess (s : Sess) : Sess :=
  { committed := s.committed, current := s.committed }

/-- Modelled from the spec: `User.recalculate_credit` is called at
worker.py lines 646 and 798 but its definition is not among the provided
sources (database.py's `User` does not define it).  Spec §3: "credit ==
sum(Transaction.value) for that user"; recalculation sets the credit
column to the sum of the user's transaction values as seen by the
session. -/
def recalculateCredit (s : Sess) : Sess :=
  { s with current :=
      { s.current with credit := (s.current.transactions.map Txn.value).sum } }

/-! ## Worker state, payment and checkout (worker.py) -/

/-- The worker's mutable control state set in `Worker.__init__`
(worker.py lines 108-117): the queue is modelled separately, the stop
flag starts false, the tracked invoice payload starts `None`, and the
stop reason starts "unknown". -/
structure WorkerState where
  shouldStop : Bool
  invoicePayload : Option String
  stopReason : String
deriving DecidableEq, Repr

/-- A freshly constructed worker (worker.py lines 108-117). -/
def initWorker : WorkerState :=
  { shouldStop := false, invoicePayload := none, stopReason := "unknown" }

/-- Model of `Worker.stop` (worker.py lines 199-203): record the reason and raise
the stop flag. -/
def workerStop (w : WorkerState) (reason : String) : WorkerState :=
  { w with stopReason := reason, shouldStop := true }

/-- Model of `Worker.__make_payment` (worker.py lines 766-804): send an invoice
whose payload is a fresh uuid (`freshPayload`, line 780) — note that
`self.invoice_payload` is never assigned anywhere in the function — then
suspend on the non-cancellable `__wait_for_successfulpayment`.
`paymentOutcome = some payment` models the wait returning a confirmed
payment: a Transaction holding `payment.total_amount` and the provider
charge ids is added, credit is recalculated and the session committed
(lines 791-800).  `paymentOutcome = none` models the wait never yielding
a payment within this attempt (a cancellation is swallowed by the
non-cancellable wait and an eventual timeout stops the conversation
before any commit), so the session is untouched.  Returns the worker
state, the session, and the list of database states committed by the
call. -/
def makePayment (w : WorkerState) (s : Sess) (amount : Int)
    (freshPayload : String) (paymentOutcome : Option SuccessfulPayment) :
    WorkerState × Sess × List DBState :=
  match paymentOutcome with
  | none => (w, s, [])
  | some payment =>
    let txn : Txn :=
      { value := payment.totalAmount
        provider := some "Credit Card"
        providerChargeId := some payment.providerPaymentChargeId
        telegramChargeId := some payment.telegramPaymentChargeId
        refunded := false
        orderId := none }
    let s1 : Sess :=
      { s with current :=
          { s.current with transactions := s.current.transactions ++ [txn] } }
    let s2 := recalculateCredit s1
    let s3 := commitSess s2
    (w, s3, [s3.committed])

/-- Model of `Worker.__order_transaction` (worker.py lines 637-650): add a
transaction linked to the order, commit, recalculate the user's credit,
and commit again.  Returns the session and the two committed states, in
order. -/
def orderTransaction (s : Sess) (orderId : Int) (value : Int) :
    Sess × List DBState :=
  let txn : Txn :=
    { value := value
      provider := none
      providerChargeId := none
      telegramChargeId := none
      refunded := false
      orderId := some orderId }
  let s1 : Sess :=
    { s with current :=
        { s.current with transactions := s.current.transactions ++ [txn] } }
  let s2 := commitSess s1
  let s3 := recalculateCredit s2
  let s4 := commitSess s3
  (s4, [s2.committed, s4.committed])

/-- The OrderItem rows built by the loop at worker.py lines 594-599: for
each cart entry, `quantity` many rows referencing the product and the
order, each with the default quantity 1. -/
def orderItemsOf (cart : Cart) (orderId : Int) : List OrderItemRow :=
  cart.flatMap (fun e =>
    List.replicate e.2.quantity.toNat
      { productId := e.2.product.id, orderId := orderId, quantity := 1 })

/-- The configuration keys read by the checkout sequence (worker.py lines
606-610): `Payments.CreditCard.credit_card_token`,
`Appearance.refill_on_checkout`, and the credit-card min/max amounts. -/
structure CheckoutConfig where
  creditCardToken : String
  refillOnCheckout : Bool
  minAmount : Int
  maxAmount : Int
deriving DecidableEq, Repr

/-- The tail of `Worker.__order_menu` after the `cart_done` callback
(worker.py lines 580-618): build the Order and its OrderItems in the
session (uncommitted), compute `credit_required = cart value − credit`;
when positive and card refill on checkout is configured and the shortfall
lies within the card range, run `__make_payment` for exactly the
shortfall; then, if credit is still below the cart value, roll the whole
attempt back, otherwise run `__order_transaction` for the negated cart
value.  Returns the worker state, the session, and every database state
committed during the attempt, in order. -/
def checkoutDone (w : WorkerState) (s : Sess) (cart : Cart)
    (cfg : CheckoutConfig) (notes : String) (newOrderId : Int)
    (freshPayload : String) (paymentOutcome : Option SuccessfulPayment) :
    WorkerState × Sess × List DBState :=
  let s1 : Sess :=
    { s with current :=
        { s.current with orders :=
            s.current.orders ++ [{ orderId := newOrderId, notes := notes }] } }
  let s2 : Sess :=
    { s1 with current :=
        { s1.current with orderItems :=
            s1.current.orderItems ++ orderItemsOf cart newOrderId } }
  let creditRequired := getCartValue cart - s2.current.credit
  let afterTopUp :=
    if creditRequired > 0 then
      if cfg.creditCardToken ≠ "" ∧ cfg.refillOnCheckout = true ∧
          cfg.minAmount ≤ creditRequired ∧ creditRequired ≤ cfg.maxAmount then
        makePayment w s2 creditRequired freshPayload paymentOutcome
      else (w, s2, [])
    else (w, s2, [])
  let w1 := afterTopUp.1
  let s3 := afterTopUp.2.1
  let trace1 := afterTopUp.2.2
  if s3.current.credit < getCartValue cart then
    (w1, rollbackSess s3, trace1)
  else
    let r := orderTransaction s3 newOrderId (-(getCartValue cart))
    (w1, r.1, trace1 ++ r.2)

/-! ## Dispatch router (core.py) -/

/-- The result of `core.pre_checkout_handler`: either the query is
answered negatively or the update is put on the worker's queue. -/
inductive PreCheckoutAction where
  | answerNegative
  | forwardToWorker
deriving DecidableEq, Repr

/-- Model of `core.pre_checkout_handler` (core.py lines 178-199): look up the
worker in the global `chat_workers` dict by the query's sender id; if
there is no worker, or the query's `invoice_payload` differs from the
worker's tracked `invoice_payload`, answer `ok=False`; otherwise forward
the update to the worker's queue. -/
def preCheckoutHandler (chatWorkers : List (Int × WorkerState))
    (q : PreCheckoutQuery) : PreCheckoutAction :=
  match (chatWorkers.find? (fun e => e.1 = q.fromUserId)).map Prod.snd with
  | none => PreCheckoutAction.answerNegative
  | some w =>
    if some q.invoicePayload ≠ w.invoicePayload then
      PreCheckoutAction.answerNegative
    else
      PreCheckoutAction.forwardToWorker

/-- The method names defined by `class Worker` (worker.py lines 82-1030);
attribute lookup on a Worker instance succeeds only for these names.
There is no `cleanup` method. -/
def workerMethodNames : List String :=
  ["__init__", "__repr__", "__create_localization", "start", "run",
   "is_ready", "stop", "update_user", "__receive_next_update",
   "__wait_for_specific_message", "__wait_for_regex",
   "__wait_for_precheckoutquery", "__wait_for_successfulpayment",
   "__wait_for_photo", "__wait_for_inlinekeyboard_callback",
   "__user_menu", "__order_menu", "__get_cart_value", "__get_cart_summary",
   "__order_transaction", "__order_notify_admins", "__order_status",
   "__add_credit_menu", "__add_credit_cc", "__make_payment",
   "__get_total_fee", "__admin_menu", "__products_menu",
   "__edit_product_menu", "__language_menu", "handle_menu_command",
   "process_message"]

/-- The router's state: `context.chat_data['worker']` for the chat a
/start arrived on, and the process-global `chat_workers` dict that
`message_handler` and `pre_checkout_handler` route through (core.py
lines 49, 100, 185).  No statement in core.py ever writes
`chat_workers`. -/
structure RouterState where
  chatDataWorker : Option WorkerState
  chatWorkers : List (Int × WorkerState)
deriving DecidableEq, Repr

/-- What `core.start_command` does on one /start update. -/
inductive StartOutcome where
  | started
  | raisedAttributeError
deriving DecidableEq, Repr

/-- Model of `core.start_command` (core.py lines 53-90): if `chat_data` already
holds a worker, `old_worker.cleanup()` is attempted first — when `cleanup`
is among the Worker methods the old worker would be replaced by a fresh
one, but Worker defines no such method (see `workerMethodNames`), so
attribute lookup raises AttributeError, the except branch replies with an
error message and re-raises, and no fresh worker is constructed.
Otherwise a fresh Worker is constructed and stored in `chat_data`.  In
either case `chat_workers` is left untouched (core.py never writes
it). -/
def startCommand (st : RouterState) : StartOutcome × RouterState :=
  match st.chatDataWorker with
  | some _ =>
    if "cleanup" ∈ workerMethodNames then
      (StartOutcome.started, { st with chatDataWorker := some initWorker })
    else
      (StartOutcome.raisedAttributeError, st)
  | none =>
    (StartOutcome.started, { st with chatDataWorker := some initWorker })

/-- The result of `core.message_handler` for one inbound text message. -/
inductive RouteOutcome where
  | noWorkerReply
  | forwarded (item : QItem)
deriving DecidableEq, Repr

/-- Model of `core.message_handler` (core.py lines 95-127): look the worker up in
the global `chat_workers` by chat id; when absent, reply
`error_no_worker_for_chat` and drop the message; otherwise enqueue a
`CancelSignal` when the text is the cancel menu label, else enqueue the
update itself. -/
def messageHandler (chatWorkers : List (Int × WorkerState)) (chatId : Int)
    (u : Update) (isCancelLabel : Bool) : RouteOutcome :=
  match (chatWorkers.find? (fun e => e.1 = chatId)).map Prod.snd with
  | none => RouteOutcome.noWorkerReply
  | some _ =>
    if isCancelLabel then RouteOutcome.forwarded QItem.cancelSignal
    else RouteOutcome.forwarded (QItem.update u)

/-! ## Theorems -/

/-- C7: for every fixed configuration (fee percentage and fixed fee) and
every amount, `__get_total_fee` returns the amount times the percentage
over 100 plus the fixed fee, floored at zero; the result is a function of
its inputs (deterministic) and never negative. -/
theorem c7_fee_floor_at_zero (amount feePercentage feeFixed : ℚ) :
    getTotalFee amount feePercentage feeFixed =
      max (amount * (feePercentage / 100) + feeFixed) 0 ∧
    0 ≤ getTotalFee amount feePercentage feeFixed := by
  unfold getTotalFee
  simp only []
  constructor
  · split_ifs with h
    · exact (max_eq_left (le_of_lt h)).symm
    · exact (max_eq_right (not_lt.mp h)).symm
  · split_ifs with h
    · exact le_of_lt h
    · exact le_refl 0

/-- C6: a blocked receive on which nothing arrives within the configured
inactivity bound synthesizes a stop request with reason "timeout" and
resolves to a graceful stop; the typed waits propagate the same outcome
when the inbox yields nothing more.  `receiveNextUpdate` is a total
function, so the timeout never escapes as an error. -/
theorem c6_timeout_is_graceful_stop :
    receiveNextUpdate none = gracefulStop { reason := "timeout" } ∧
    receiveNextUpdate none = RecvResult.stopped "timeout" ∧
    ∀ cancellable : Bool,
      waitForPhoto cancellable [] = WaitResult.stopped "timeout" ∧
      waitForSuccessfulPayment cancellable [] = WaitResult.stopped "timeout" := by
  refine ⟨rfl, rfl, fun cancellable => ⟨rfl, rfl⟩⟩

/-- C8: whenever `__make_payment`'s wait yields a successful-payment
confirmation, the Transaction created records exactly the confirmed
`payment.total_amount` as its value — independently of the originally
requested `amount` — together with both provider charge identifiers, and
the committed credit equals the recomputed transaction sum. -/
theorem c8_confirmed_amount_is_authoritative (w : WorkerState) (s : Sess)
    (amount : Int) (freshPayload : String) (payment : SuccessfulPayment) :
    (makePayment w s amount freshPayload (some payment)).2.1.committed.transactions =
      s.current.transactions ++
        [{ value := payment.totalAmount
           provider := some "Credit Card"
           providerChargeId := some payment.providerPaymentChargeId
           telegramChargeId := some payment.telegramPaymentChargeId
           refunded := false
           orderId := none }] ∧
    (makePayment w s amount freshPayload (some payment)).2.1.committed.credit =
      txnSum (makePayment w s amount freshPayload (some payment)).2.1.committed := by
  exact ⟨rfl, rfl⟩

/-- C4, evaluated at the failing input: after `__make_payment` issues an
invoice with payload "p1", the worker's tracked `invoice_payload` is
still `None` (worker.py never assigns it after `__init__`), and the
pre-checkout confirmation carrying exactly that payload is answered
negatively by `pre_checkout_handler` instead of being forwarded. -/
theorem c4_matching_confirmation_rejected :
    (makePayment initWorker
        ⟨{ credit := 0, transactions := [], orders := [], orderItems := [] },
         { credit := 0, transactions := [], orders := [], orderItems := [] }⟩
        500 "p1" none).1.invoicePayload = none ∧
    preCheckoutHandler
      [(42, (makePayment initWorker
          ⟨{ credit := 0, transactions := [], orders := [], orderItems := [] },
           { credit := 0, transactions := [], orders := [], orderItems := [] }⟩
          500 "p1" none).1)]
      { fromUserId := 42, invoicePayload := "p1" } =
      PreCheckoutAction.answerNegative := by
  exact ⟨rfl, rfl⟩

/-- C9, evaluated at the failing input: a /start on a chat whose
`chat_data` already holds a live worker makes `start_command` raise
(`old_worker.cleanup()` — Worker has no `cleanup` method), leaving the
router state unchanged: the old worker's stop reason is still "unknown",
never "restarted", and no fresh worker is constructed.  Moreover, even a
successful /start on a fresh chat leaves the global `chat_workers` empty,
so `message_handler` finds no worker for the chat and the fresh worker
never receives the chat's subsequent events. -/
theorem c9_restart_neither_stops_nor_replaces :
    (startCommand { chatDataWorker := some initWorker, chatWorkers := [] }).1 =
      StartOutcome.raisedAttributeError ∧
    (startCommand { chatDataWorker := some initWorker, chatWorkers := [] }).2 =
      { chatDataWorker := some initWorker, chatWorkers := [] } ∧
    initWorker.stopReason = "unknown" ∧
    (workerStop initWorker "restarted").stopReason = "restarted" ∧
    ¬ ("cleanup" ∈ workerMethodNames) ∧
    messageHandler
      (startCommand { chatDataWorker := none, chatWorkers := [] }).2.chatWorkers
      42 { message := none, preCheckoutQuery := none, callbackQuery := none } false =
      RouteOutcome.noWorkerReply := by
  refine ⟨by decide, by decide, rfl, rfl, by decide, rfl⟩

/-- An update whose message carries no photo never terminates
`__wait_for_photo`: the loop just continues with the rest of the
queue. -/
theorem waitForPhoto_skip (c : Bool) (u : Update) (rest : List QItem)
    (h : ∀ m, u.message = some m → m.photo = none) :
    waitForPhoto c (QItem.update u :: rest) = waitForPhoto c rest := by
  cases hm : u.message with
  | none => simp [waitForPhoto, receiveNextUpdate, hm]
  | some m => simp [waitForPhoto, receiveNextUpdate, hm, h m hm]

/-- An update whose message carries no successful payment never
terminates `__wait_for_successfulpayment`. -/
theorem waitForSuccessfulPayment_skip (c : Bool) (u : Update)
    (rest : List QItem)
    (h : ∀ m, u.message = some m → m.successfulPayment = none) :
    waitForSuccessfulPayment c (QItem.update u :: rest) =
      waitForSuccessfulPayment c rest := by
  cases hm : u.message with
  | none => simp [waitForSuccessfulPayment, receiveNextUpdate, hm]
  | some m => simp [waitForSuccessfulPayment, receiveNextUpdate, hm, h m hm]

/-- A `CancelSignal` at the head of the queue returns from a cancellable
photo wait. -/
theorem waitForPhoto_cancel (rest : List QItem) :
    waitForPhoto true (QItem.cancelSignal :: rest) = WaitResult.cancelled := by
  simp [waitForPhoto, receiveNextUpdate]

/-- A `CancelSignal` is swallowed by a non-cancellable photo wait. -/
theorem waitForPhoto_swallow (rest : List QItem) :
    waitForPhoto false (QItem.cancelSignal :: rest) = waitForPhoto false rest := by
  simp [waitForPhoto, receiveNextUpdate]

/-- A `CancelSignal` at the head of the queue returns from a cancellable
successful-payment wait. -/
theorem waitForSuccessfulPayment_cancel (rest : List QItem) :
    waitForSuccessfulPayment true (QItem.cancelSignal :: rest) =
      WaitResult.cancelled := by
  simp [waitForSuccessfulPayment, receiveNextUpdate]

/-- A `CancelSignal` is swallowed by a non-cancellable successful-payment
wait. -/
theorem waitForSuccessfulPayment_swallow (rest : List QItem) :
    waitForSuccessfulPayment false (QItem.cancelSignal :: rest) =
      waitForSuccessfulPayment false rest := by
  simp [waitForSuccessfulPayment, receiveNextUpdate]

/-- The wait `__wait_for_photo` returns `matched` only for a photo actually
present in the queue. -/
theorem waitForPhoto_matched_mem {c : Bool} {events : List QItem}
    {photos : List PhotoSize}
    (h : waitForPhoto c events = WaitResult.matched photos) :
    ∃ u m, QItem.update u ∈ events ∧ u.message = some m ∧
      m.photo = some photos := by
  induction events with
  | nil => simp [waitForPhoto] at h
  | cons q rest ih =>
    cases q with
    | stopSignal s => simp [waitForPhoto, receiveNextUpdate, gracefulStop] at h
    | cancelSignal =>
      cases c with
      | true => simp [waitForPhoto, receiveNextUpdate] at h
      | false =>
        rw [waitForPhoto_swallow] at h
        obtain ⟨u, m, hmem, h1, h2⟩ := ih h
        exact ⟨u, m, List.mem_cons_of_mem _ hmem, h1, h2⟩
    | update u =>
      cases hm : u.message with
      | none =>
        rw [waitForPhoto_skip c u rest (by simp [hm])] at h
        obtain ⟨v, m, hmem, h1, h2⟩ := ih h
        exact ⟨v, m, List.mem_cons_of_mem _ hmem, h1, h2⟩
      | some m =>
        cases hp : m.photo with
        | none =>
          rw [waitForPhoto_skip c u rest (by simp [hm, hp])] at h
          obtain ⟨v, m1, hmem, h1, h2⟩ := ih h
          exact ⟨v, m1, List.mem_cons_of_mem _ hmem, h1, h2⟩
        | some ph =>
          simp only [waitForPhoto, receiveNextUpdate, hm, hp] at h
          refine ⟨u, m, List.mem_cons_self _ _, hm, ?_⟩
          rw [hp]
          cases h
          rfl

/-- The wait `__wait_for_successfulpayment` returns `matched` only for a payment
actually present in the queue. -/
theorem waitForSuccessfulPayment_matched_mem {c : Bool} {events : List QItem}
    {payment : SuccessfulPayment}
    (h : waitForSuccessfulPayment c events = WaitResult.matched payment) :
    ∃ u m, QItem.update u ∈ events ∧ u.message = some m ∧
      m.successfulPayment = some payment := by
  induction events with
  | nil => simp [waitForSuccessfulPayment] at h
  | cons q rest ih =>
    cases q with
    | stopSignal s =>
      simp [waitForSuccessfulPayment, receiveNextUpdate, gracefulStop] at h
    | cancelSignal =>
      cases c with
      | true => simp [waitForSuccessfulPayment, receiveNextUpdate] at h
      | false =>
        rw [waitForSuccessfulPayment_swallow] at h
        obtain ⟨u, m, hmem, h1, h2⟩ := ih h
        exact ⟨u, m, List.mem_cons_of_mem _ hmem, h1, h2⟩
    | update u =>
      cases hm : u.message with
      | none =>
        rw [waitForSuccessfulPayment_skip c u rest (by simp [hm])] at h
        obtain ⟨v, m, hmem, h1, h2⟩ := ih h
        exact ⟨v, m, List.mem_cons_of_mem _ hmem, h1, h2⟩
      | some m =>
        cases hp : m.successfulPayment with
        | none =>
          rw [waitForSuccessfulPayment_skip c u rest (by simp [hm, hp])] at h
          obtain ⟨v, m1, hmem, h1, h2⟩ := ih h
          exact ⟨v, m1, List.mem_cons_of_mem _ hmem, h1, h2⟩
        | some pay =>
          simp only [waitForSuccessfulPayment, receiveNextUpdate, hm, hp] at h
          refine ⟨u, m, List.mem_cons_self _ _, hm, ?_⟩
          rw [hp]
          cases h
          rfl

/-- C5: typed waits drain the inbox discarding non-matching events
without returning (a stray text message during `__wait_for_photo` only
advances the drain), they return `matched` only on an event actually
matching the wait's type, a `CancelSignal` returns exactly when the wait
was invoked with `cancellable=True`, and a `CancelSignal` during a
non-cancellable wait is swallowed and the wait continues. -/
theorem c5_typed_waits_drain_discipline :
    (∀ (c : Bool) (u : Update) (rest : List QItem),
        (∀ m, u.message = some m → m.photo = none) →
        waitForPhoto c (QItem.update u :: rest) = waitForPhoto c rest) ∧
    (∀ (c : Bool) (u : Update) (rest : List QItem),
        (∀ m, u.message = some m → m.successfulPayment = none) →
        waitForSuccessfulPayment c (QItem.update u :: rest) =
          waitForSuccessfulPayment c rest) ∧
    (∀ rest : List QItem,
        waitForPhoto true (QItem.cancelSignal :: rest) = WaitResult.cancelled ∧
        waitForSuccessfulPayment true (QItem.cancelSignal :: rest) =
          WaitResult.cancelled) ∧
    (∀ rest : List QItem,
        waitForPhoto false (QItem.cancelSignal :: rest) =
          waitForPhoto false rest ∧
        waitForSuccessfulPayment false (QItem.cancelSignal :: rest) =
          waitForSuccessfulPayment false rest) ∧
    (∀ (c : Bool) (events : List QItem) (photos : List PhotoSize),
        waitForPhoto c events = WaitResult.matched photos →
        ∃ u m, QItem.update u ∈ events ∧ u.message = some m ∧
          m.photo = some photos) ∧
    (∀ (c : Bool) (events : List QItem) (payment : SuccessfulPayment),
        waitForSuccessfulPayment c events = WaitResult.matched payment →
        ∃ u m, QItem.update u ∈ events ∧ u.message = some m ∧
          m.successfulPayment = some payment) := by
  refine ⟨waitForPhoto_skip, waitForSuccessfulPayment_skip,
    fun rest => ⟨waitForPhoto_cancel rest, waitForSuccessfulPayment_cancel rest⟩,
    fun rest => ⟨waitForPhoto_swallow rest, waitForSuccessfulPayment_swallow rest⟩,
    fun c events photos h => waitForPhoto_matched_mem h,
    fun c events payment h => waitForSuccessfulPayment_matched_mem h⟩

/-- Witness for C5 at a concrete inbox: a stray text message during a
photo wait is discarded, a cancellable wait returns on a `CancelSignal`,
a non-cancellable wait swallows it, and a `matched` result exhibits the
matching event. -/
theorem c5_typed_waits_witness :
    (waitForPhoto false
        (QItem.update
            { message := some { text := some "hello", photo := none,
                                successfulPayment := none },
              preCheckoutQuery := none, callbackQuery := none } :: []) =
      waitForPhoto false []) ∧
    (waitForPhoto true (QItem.cancelSignal :: []) = WaitResult.cancelled) ∧
    (waitForPhoto false (QItem.cancelSignal :: []) = waitForPhoto false []) ∧
    (∃ u m,
      QItem.update u ∈
        [QItem.update
          { message := some { text := none, photo := some [{ fileId := "f1" }],
                              successfulPayment := none },
            preCheckoutQuery := none, callbackQuery := none }] ∧
      u.message = some m ∧ m.photo = some [{ fileId := "f1" }]) := by
  refine ⟨c5_typed_waits_drain_discipline.1 false _ [] (by intro m hm; cases hm; rfl),
    (c5_typed_waits_drain_discipline.2.2.1 []).1,
    (c5_typed_waits_drain_discipline.2.2.2.1 []).1,
    c5_typed_waits_drain_discipline.2.2.2.2.1 false _ [{ fileId := "f1" }] rfl⟩

/-- Unfolding `cart.get` over a cons cell. -/
theorem cartGet_cons (e : Int × CartLine) (rest : Cart) (k : Int) :
    cartGet (e :: rest) k = if e.1 = k then some e.2 else cartGet rest k := by
  by_cases h : e.1 = k <;> simp [cartGet, List.find?_cons, h]

/-- Reading back the mutated key after an in-place dict mutation. -/
theorem cartGet_cartModify_self (cart : Cart) (k : Int) (f : CartLine → CartLine) :
    cartGet (cartModify cart k f) k = (cartGet cart k).map f := by
  induction cart with
  | nil => rfl
  | cons e rest ih =>
    by_cases h : e.1 = k
    · simp [cartModify, cartGet_cons, h]
    · simp only [cartModify, List.map_cons, if_neg h]
      rw [cartGet_cons, cartGet_cons, if_neg h, if_neg h]
      simpa [cartModify] using ih

/-- Keys other than the mutated one are untouched. -/
theorem cartGet_cartModify_other (cart : Cart) (k k' : Int)
    (f : CartLine → CartLine) (hne : k' ≠ k) :
    cartGet (cartModify cart k f) k' = cartGet cart k' := by
  induction cart with
  | nil => rfl
  | cons e rest ih =>
    by_cases h : e.1 = k
    · simp only [cartModify, List.map_cons, if_pos h]
      rw [cartGet_cons, cartGet_cons]
      have : ¬ e.1 = k' := fun hc => hne (hc ▸ h ▸ rfl)
      rw [if_neg this, if_neg this]
      simpa [cartModify] using ih
    · simp only [cartModify, List.map_cons, if_neg h]
      rw [cartGet_cons, cartGet_cons]
      by_cases h2 : e.1 = k'
      · rw [if_pos h2, if_pos h2]
      · rw [if_neg h2, if_neg h2]
        simpa [cartModify] using ih

/-- With unique keys (a Python dict), a stored entry is what `get`
returns for its key. -/
theorem cartGet_eq_of_mem {cart : Cart} (hnd : (cart.map Prod.fst).Nodup)
    {x : Int × CartLine} (hx : x ∈ cart) : cartGet cart x.1 = some x.2 := by
  induction cart with
  | nil => cases hx
  | cons e rest ih =>
    rw [List.map_cons, List.nodup_cons] at hnd
    rw [cartGet_cons]
    rcases List.mem_cons.mp hx with rfl | hx2
    · simp
    · have hne : ¬ e.1 = x.1 := by
        intro he
        exact hnd.1 (he ▸ List.mem_map_of_mem Prod.fst hx2)
      rw [if_neg hne]
      exact ih hnd.2 hx2

/-- Every entry of a mutated cart comes from an entry of the original
cart, mutated exactly when its key is the referenced one. -/
theorem mem_cartModify {cart : Cart} {k : Int} {f : CartLine → CartLine}
    {e : Int × CartLine} (he : e ∈ cartModify cart k f) :
    ∃ x ∈ cart, e = if x.1 = k then (x.1, f x.2) else x := by
  simp only [cartModify] at he
  obtain ⟨x, hx, hxe⟩ := List.mem_map.mp he
  exact ⟨x, hx, hxe.symm⟩

/-- C10: across every iteration of the cart callback loop, quantities
stay non-negative; `cart_add` increments the referenced line by one and
leaves other lines untouched; `cart_remove` decrements only a positive
quantity and is a no-op at zero; and an add/remove callback whose message
id is not a cart line leaves the cart unchanged and keeps the loop
running. -/
theorem c10_cart_quantities_nonneg :
    (∀ (cart : Cart) (cb : CallbackQuery) (cart1 : Cart),
        (cart.map Prod.fst).Nodup →
        (∀ e ∈ cart, 0 ≤ e.2.quantity) →
        cartCallbackStep cart cb = CartLoopStep.continueLoop cart1 →
        ∀ e ∈ cart1, 0 ≤ e.2.quantity) ∧
    (∀ (cart : Cart) (cb : CallbackQuery) (l : CartLine),
        cb.data = "cart_add" → cartGet cart cb.messageId = some l →
        cartCallbackStep cart cb =
          CartLoopStep.continueLoop
            (cartModify cart cb.messageId
              (fun x => { x with quantity := x.quantity + 1 })) ∧
        cartGet
            (cartModify cart cb.messageId
              (fun x => { x with quantity := x.quantity + 1 }))
            cb.messageId = some { l with quantity := l.quantity + 1 } ∧
        ∀ k, k ≠ cb.messageId →
          cartGet
              (cartModify cart cb.messageId
                (fun x => { x with quantity := x.quantity + 1 })) k =
            cartGet cart k) ∧
    (∀ (cart : Cart) (cb : CallbackQuery) (l : CartLine),
        cb.data = "cart_remove" → cartGet cart cb.messageId = some l →
        0 < l.quantity →
        cartCallbackStep cart cb =
          CartLoopStep.continueLoop
            (cartModify cart cb.messageId
              (fun x => { x with quantity := x.quantity - 1 }))) ∧
    (∀ (cart : Cart) (cb : CallbackQuery) (l : CartLine),
        cb.data = "cart_remove" → cartGet cart cb.messageId = some l →
        l.quantity ≤ 0 →
        cartCallbackStep cart cb = CartLoopStep.continueLoop cart) ∧
    (∀ (cart : Cart) (cb : CallbackQuery),
        cb.data = "cart_add" ∨ cb.data = "cart_remove" →
        cartGet cart cb.messageId = none →
        cartCallbackStep cart cb = CartLoopStep.continueLoop cart) := by
  refine ⟨?inv, ?add, ?remPos, ?remZero, ?unknown⟩
  case inv =>
    intro cart cb cart1 hnd hq hstep e he
    unfold cartCallbackStep at hstep
    by_cases h1 : cb.data = "cart_cancel"
    · rw [if_pos h1] at hstep
      cases hstep
    rw [if_neg h1] at hstep
    by_cases h2 : cb.data = "cart_add"
    · rw [if_pos h2] at hstep
      rcases hget : cartGet cart cb.messageId with _ | l
      · simp only [hget] at hstep
        cases hstep
        exact hq e he
      · simp only [hget] at hstep
        cases hstep
        obtain ⟨x, hx, hxe⟩ := mem_cartModify he
        by_cases hk : x.1 = cb.messageId
        · rw [if_pos hk] at hxe
          subst hxe
          have hx0 := hq x hx
          dsimp only
          omega
        · rw [if_neg hk] at hxe
          rw [hxe]
          exact hq x hx
    rw [if_neg h2] at hstep
    by_cases h3 : cb.data = "cart_remove"
    · rw [if_pos h3] at hstep
      rcases hget : cartGet cart cb.messageId with _ | l
      · simp only [hget] at hstep
        cases hstep
        exact hq e he
      · simp only [hget] at hstep
        by_cases hpos : l.quantity > 0
        · rw [if_pos hpos] at hstep
          cases hstep
          obtain ⟨x, hx, hxe⟩ := mem_cartModify he
          by_cases hk : x.1 = cb.messageId
          · rw [if_pos hk] at hxe
            subst hxe
            have hxl : cartGet cart x.1 = some x.2 := cartGet_eq_of_mem hnd hx
            rw [hk, hget] at hxl
            have hx2 : l = x.2 := by injection hxl
            dsimp only
            rw [← hx2]
            omega
          · rw [if_neg hk] at hxe
            rw [hxe]
            exact hq x hx
        · rw [if_neg hpos] at hstep
          cases hstep
          exact hq e he
    rw [if_neg h3] at hstep
    by_cases h4 : cb.data = "cart_done"
    · rw [if_pos h4] at hstep
      cases hstep
    · rw [if_neg h4] at hstep
      cases hstep
      exact hq e he
  case add =>
    intro cart cb l hdata hget
    refine ⟨?_, ?_, ?_⟩
    · unfold cartCallbackStep
      rw [if_neg (by rw [hdata]; decide), if_pos hdata]
      simp only [hget]
    · rw [cartGet_cartModify_self, hget]
      rfl
    · intro k hk
      exact cartGet_cartModify_other cart cb.messageId k _ hk
  case remPos =>
    intro cart cb l hdata hget hpos
    unfold cartCallbackStep
    rw [if_neg (by rw [hdata]; decide), if_neg (by rw [hdata]; decide),
      if_pos hdata]
    simp only [hget]
    rw [if_pos hpos]
  case remZero =>
    intro cart cb l hdata hget hz
    unfold cartCallbackStep
    rw [if_neg (by rw [hdata]; decide), if_neg (by rw [hdata]; decide),
      if_pos hdata]
    simp only [hget]
    rw [if_neg (by omega)]
  case unknown =>
    intro cart cb hdata hget
    rcases hdata with hdata | hdata
    · unfold cartCallbackStep
      rw [if_neg (by rw [hdata]; decide), if_pos hdata]
      simp only [hget]
    · unfold cartCallbackStep
      rw [if_neg (by rw [hdata]; decide), if_neg (by rw [hdata]; decide),
        if_pos hdata]
      simp only [hget]

/-- Witness for C10 on a concrete two-line cart: the invariant is
preserved by an add step, the add increments the referenced line, a
remove at quantity zero is a no-op, and an unknown message id leaves the
cart unchanged. -/
theorem c10_cart_quantities_witness :
    (∀ e ∈ cartModify
        [((10 : Int),
          ({ product := { id := 1, name := "A", description := "",
                          price := some 500, deleted := false },
             quantity := 0 } : CartLine))]
        10 (fun x => { x with quantity := x.quantity + 1 }),
      0 ≤ e.2.quantity) ∧
    cartCallbackStep
        [((10 : Int),
          ({ product := { id := 1, name := "A", description := "",
                          price := some 500, deleted := false },
             quantity := 0 } : CartLine))]
        { data := "cart_remove", messageId := 10 } =
      CartLoopStep.continueLoop
        [((10 : Int),
          ({ product := { id := 1, name := "A", description := "",
                          price := some 500, deleted := false },
             quantity := 0 } : CartLine))] ∧
    cartCallbackStep
        [((10 : Int),
          ({ product := { id := 1, name := "A", description := "",
                          price := some 500, deleted := false },
             quantity := 0 } : CartLine))]
        { data := "cart_add", messageId := 99 } =
      CartLoopStep.continueLoop
        [((10 : Int),
          ({ product := { id := 1, name := "A", description := "",
                          price := some 500, deleted := false },
             quantity := 0 } : CartLine))] := by
  refine ⟨?_, ?_, ?_⟩
  · exact c10_cart_quantities_nonneg.1
      [((10 : Int),
        ({ product := { id := 1, name := "A", description := "",
                        price := some 500, deleted := false },
           quantity := 0 } : CartLine))]
      { data := "cart_add", messageId := 10 }
      (cartModify
        [((10 : Int),
          ({ product := { id := 1, name := "A", description := "",
                          price := some 500, deleted := false },
             quantity := 0 } : CartLine))]
        10 (fun x => { x with quantity := x.quantity + 1 }))
      (by decide) (by decide) (by decide)
  · exact c10_cart_quantities_nonneg.2.2.2.1
      [((10 : Int),
        ({ product := { id := 1, name := "A", description := "",
                        price := some 500, deleted := false },
           quantity := 0 } : CartLine))]
      { data := "cart_remove", messageId := 10 }
      { product := { id := 1, name := "A", description := "",
                     price := some 500, deleted := false },
        quantity := 0 }
      rfl (by decide) (by decide)
  · exact c10_cart_quantities_nonneg.2.2.2.2
      [((10 : Int),
        ({ product := { id := 1, name := "A", description := "",
                        price := some 500, deleted := false },
           quantity := 0 } : CartLine))]
      { data := "cart_add", messageId := 99 } (Or.inl rfl) (by decide)

/-- The debit transaction built by `__order_transaction` (worker.py lines
639-641). -/
def debitTxn (oid : Int) (value : Int) : Txn :=
  { value := value
    provider := none
    providerChargeId := none
    telegramChargeId := none
    refunded := false
    orderId := some oid }

/-- The database state committed by the first `session.commit()` of
`__order_transaction` (worker.py line 644) when checkout starts from a
clean session over `s0` with sufficient credit: the order, its items and
the debit transaction are persisted, while the credit column still holds
its previous value. -/
def checkoutMidState (s0 : DBState) (cart : Cart) (notes : String)
    (oid : Int) : DBState :=
  { credit := s0.credit
    transactions := s0.transactions ++ [debitTxn oid (-(getCartValue cart))]
    orders := s0.orders ++ [{ orderId := oid, notes := notes }]
    orderItems := s0.orderItems ++ orderItemsOf cart oid }

/-- The database state committed by the second `session.commit()` of
`__order_transaction` (worker.py line 648): as `checkoutMidState`, with
the credit column recalculated. -/
def checkoutFinalState (s0 : DBState) (cart : Cart) (notes : String)
    (oid : Int) : DBState :=
  { checkoutMidState s0 cart notes oid with
    credit :=
      ((checkoutMidState s0 cart notes oid).transactions.map Txn.value).sum }

/-- Unfolding one sufficient-credit checkout from a clean session: no
top-up is attempted and `__order_transaction` commits twice, first
without and then with the recalculated credit. -/
theorem checkoutDone_sufficient (w : WorkerState) (s0 : DBState)
    (cart : Cart) (cfg : CheckoutConfig) (notes : String) (oid : Int)
    (pl : String) (outcome : Option SuccessfulPayment)
    (hsuff : getCartValue cart ≤ s0.credit) :
    checkoutDone w ⟨s0, s0⟩ cart cfg notes oid pl outcome =
      (w,
       ⟨checkoutFinalState s0 cart notes oid,
        checkoutFinalState s0 cart notes oid⟩,
       [checkoutMidState s0 cart notes oid,
        checkoutFinalState s0 cart notes oid]) := by
  unfold checkoutDone orderTransaction commitSess recalculateCredit
  dsimp only
  rw [if_neg (by omega : ¬ getCartValue cart - s0.credit > 0)]
  dsimp only
  rw [if_neg (not_lt.mpr hsuff)]
  unfold checkoutFinalState checkoutMidState debitTxn
  rfl

/-- C1, counterexample to "credit equals the transaction sum at every
committed state": starting from a state satisfying the invariant (credit
2000, one transaction of 2000) and checking out a cart of total 1300,
the first commit of `__order_transaction` (worker.py line 644) publishes
a committed state whose credit is still 2000 while its transaction sum
is already 700. -/
theorem c1_committed_invariant_counterexample :
    ((checkoutDone initWorker
        ⟨{ credit := 2000
           transactions := [{ value := 2000, provider := none,
                              providerChargeId := none,
                              telegramChargeId := none, refunded := false,
                              orderId := none }]
           orders := [], orderItems := [] },
         { credit := 2000
           transactions := [{ value := 2000, provider := none,
                              providerChargeId := none,
                              telegramChargeId := none, refunded := false,
                              orderId := none }]
           orders := [], orderItems := [] }⟩
        [((10 : Int),
          ({ product := { id := 1, name := "A", description := "",
                          price := some 1300, deleted := false },
             quantity := 1 } : CartLine))]
        { creditCardToken := "", refillOnCheckout := false,
          minAmount := 0, maxAmount := 0 }
        "" 1 "p" none).2.2.map (fun st => (st.credit, txnSum st))) =
      [((2000 : Int), (700 : Int)), ((700 : Int), (700 : Int))] ∧
    (2000 : Int) ≠ (700 : Int) := by
  exact ⟨rfl, by decide⟩

/-- C1 (amended): the ledger invariant `credit = sum(Transaction.value)`
holds at the committed state each credit-affecting operation leaves
behind — one intermediate commit inside `__order_transaction` (after the
debit is persisted, before the credit is recalculated) may transiently
violate it — and after a completed purchase the final committed credit
equals `credit_before − total(cart)` as derived from the persisted
transactions. -/
theorem c1_credit_invariant_at_operation_end (w : WorkerState)
    (s0 : DBState) (cart : Cart) (cfg : CheckoutConfig) (notes : String)
    (oid : Int) (pl : String) (outcome : Option SuccessfulPayment)
    (hinv : s0.credit = txnSum s0)
    (hsuff : getCartValue cart ≤ s0.credit) :
    ((checkoutDone w ⟨s0, s0⟩ cart cfg notes oid pl outcome).2.1.committed.credit =
        txnSum (checkoutDone w ⟨s0, s0⟩ cart cfg notes oid pl outcome).2.1.committed) ∧
    ((checkoutDone w ⟨s0, s0⟩ cart cfg notes oid pl outcome).2.1.committed.credit =
        s0.credit - getCartValue cart) ∧
    ((checkoutDone w ⟨s0, s0⟩ cart cfg notes oid pl outcome).2.2.getLast? =
        some (checkoutDone w ⟨s0, s0⟩ cart cfg notes oid pl outcome).2.1.committed) := by
  rw [checkoutDone_sufficient w s0 cart cfg notes oid pl outcome hsuff]
  refine ⟨rfl, ?_, rfl⟩
  show ((checkoutMidState s0 cart notes oid).transactions.map Txn.value).sum =
    s0.credit - getCartValue cart
  unfold checkoutMidState debitTxn
  rw [List.map_append, List.sum_append, hinv]
  unfold txnSum
  simp
  omega

/-- Witness for C1 (amended) at a concrete purchase: credit 1500 backed
by one transaction of 1500, cart total 1000; the final committed state
satisfies the invariant and holds credit 500. -/
theorem c1_credit_invariant_witness :
    (((1500 : Int) = txnSum
        { credit := 1500
          transactions := [{ value := 1500, provider := none,
                             providerChargeId := none,
                             telegramChargeId := none, refunded := false,
                             orderId := none }]
          orders := [], orderItems := [] }) ∧
     (getCartValue
        [((10 : Int),
          ({ product := { id := 7, name := "B", description := "",
                          price := some 500, deleted := false },
             quantity := 2 } : CartLine))] ≤ (1500 : Int))) ∧
    ((checkoutDone initWorker
        ⟨{ credit := 1500
           transactions := [{ value := 1500, provider := none,
                              providerChargeId := none,
                              telegramChargeId := none, refunded := false,
                              orderId := none }]
           orders := [], orderItems := [] },
         { credit := 1500
           transactions := [{ value := 1500, provider := none,
                              providerChargeId := none,
                              telegramChargeId := none, refunded := false,
                              orderId := none }]
           orders := [], orderItems := [] }⟩
        [((10 : Int),
          ({ product := { id := 7, name := "B", description := "",
                          price := some 500, deleted := false },
             quantity := 2 } : CartLine))]
        { creditCardToken := "", refillOnCheckout := false,
          minAmount := 0, maxAmount := 0 }
        "" 3 "p" none).2.1.committed.credit =
      (1500 : Int) - getCartValue
        [((10 : Int),
          ({ product := { id := 7, name := "B", description := "",
                          price := some 500, deleted := false },
             quantity := 2 } : CartLine))]) := by
  refine ⟨⟨by decide, by decide⟩, ?_⟩
  exact (c1_credit_invariant_at_operation_end initWorker _ _ _ "" 3 "p" none
    (by decide) (by decide)).2.1

/-- Every OrderItem row built for an order references that order. -/
theorem mem_orderItemsOf {cart : Cart} {oid : Int} {it : OrderItemRow}
    (h : it ∈ orderItemsOf cart oid) : it.orderId = oid := by
  unfold orderItemsOf at h
  obtain ⟨e, _, he⟩ := List.mem_flatMap.mp h
  rw [List.eq_of_mem_replicate he]

/-- A product with quantity N contributes N rows: the loop at worker.py
lines 594-599 emits one row per unit of quantity. -/
theorem length_orderItemsOf (cart : Cart) (oid : Int) :
    (orderItemsOf cart oid).length =
      (cart.map (fun e => e.2.quantity.toNat)).sum := by
  unfold orderItemsOf
  induction cart with
  | nil => rfl
  | cons e rest ih => simp [List.flatMap_cons, ih]

/-- C2: with sufficient credit, finalizing the cart with "Done" persists
exactly one Order with the fresh order id, exactly the one-row-per-unit
OrderItem rows (a product with quantity N yields N rows), and exactly one
Transaction linked to that Order whose value is the negation of the cart
total, leaving the committed credit at `credit_before − total`. -/
theorem c2_done_persists_order_items_txn (w : WorkerState) (s0 : DBState)
    (cart : Cart) (cfg : CheckoutConfig) (notes : String) (oid : Int)
    (pl : String) (outcome : Option SuccessfulPayment)
    (hord : ∀ o ∈ s0.orders, o.orderId ≠ oid)
    (hitem : ∀ it ∈ s0.orderItems, it.orderId ≠ oid)
    (htxn : ∀ t ∈ s0.transactions, t.orderId ≠ some oid)
    (hinv : s0.credit = txnSum s0)
    (hsuff : getCartValue cart ≤ s0.credit) :
    (((checkoutDone w ⟨s0, s0⟩ cart cfg notes oid pl outcome).2.1.committed.orders.filter
        (fun o => decide (o.orderId = oid))).length = 1) ∧
    ((checkoutDone w ⟨s0, s0⟩ cart cfg notes oid pl outcome).2.1.committed.orderItems.filter
        (fun it => decide (it.orderId = oid)) = orderItemsOf cart oid) ∧
    ((orderItemsOf cart oid).length =
        (cart.map (fun e => e.2.quantity.toNat)).sum) ∧
    (((checkoutDone w ⟨s0, s0⟩ cart cfg notes oid pl outcome).2.1.committed.transactions.filter
        (fun t => decide (t.orderId = some oid))).map Txn.value =
      [-(getCartValue cart)]) ∧
    ((checkoutDone w ⟨s0, s0⟩ cart cfg notes oid pl outcome).2.1.committed.credit =
        s0.credit - getCartValue cart) := by
  rw [checkoutDone_sufficient w s0 cart cfg notes oid pl outcome hsuff]
  have horders : s0.orders.filter (fun o => decide (o.orderId = oid)) = [] := by
    rw [List.filter_eq_nil_iff]
    intro o ho
    simpa using hord o ho
  have hitems : s0.orderItems.filter (fun it => decide (it.orderId = oid)) = [] := by
    rw [List.filter_eq_nil_iff]
    intro it hit
    simpa using hitem it hit
  have htxns : s0.transactions.filter (fun t => decide (t.orderId = some oid)) = [] := by
    rw [List.filter_eq_nil_iff]
    intro t ht
    simpa using htxn t ht
  refine ⟨?_, ?_, length_orderItemsOf cart oid, ?_, ?_⟩
  · show ((s0.orders ++ [({ orderId := oid, notes := notes } : OrderRow)]).filter
        (fun o => decide (o.orderId = oid))).length = 1
    rw [List.filter_append, horders]
    simp
  · show (s0.orderItems ++ orderItemsOf cart oid).filter
        (fun it => decide (it.orderId = oid)) = orderItemsOf cart oid
    rw [List.filter_append, hitems, List.nil_append]
    rw [List.filter_eq_self]
    intro it hit
    simpa using mem_orderItemsOf hit
  · show ((s0.transactions ++ [debitTxn oid (-(getCartValue cart))]).filter
        (fun t => decide (t.orderId = some oid))).map Txn.value =
      [-(getCartValue cart)]
    rw [List.filter_append, htxns, List.nil_append]
    simp [debitTxn]
  · show ((checkoutMidState s0 cart notes oid).transactions.map Txn.value).sum =
      s0.credit - getCartValue cart
    unfold checkoutMidState debitTxn
    rw [List.map_append, List.sum_append, hinv]
    unfold txnSum
    simp
    omega

/-- Witness for C2 at Scenario B: a cart of {price 500 qty 2, price 300
qty 1} against credit 2000 (backed by one transaction of 2000) yields one
Order, 3 OrderItem rows, one Transaction of −1300, and credit 700. -/
theorem c2_done_persists_witness :
    (getCartValue
        [((10 : Int),
          ({ product := { id := 1, name := "A", description := "",
                          price := some 500, deleted := false },
             quantity := 2 } : CartLine)),
         ((11 : Int),
          ({ product := { id := 2, name := "B", description := "",
                          price := some 300, deleted := false },
             quantity := 1 } : CartLine))] = (1300 : Int)) ∧
    (((checkoutDone initWorker
        ⟨{ credit := 2000
           transactions := [{ value := 2000, provider := none,
                              providerChargeId := none,
                              telegramChargeId := none, refunded := false,
                              orderId := none }]
           orders := [], orderItems := [] },
         { credit := 2000
           transactions := [{ value := 2000, provider := none,
                              providerChargeId := none,
                              telegramChargeId := none, refunded := false,
                              orderId := none }]
           orders := [], orderItems := [] }⟩
        [((10 : Int),
          ({ product := { id := 1, name := "A", description := "",
                          price := some 500, deleted := false },
             quantity := 2 } : CartLine)),
         ((11 : Int),
          ({ product := { id := 2, name := "B", description := "",
                          price := some 300, deleted := false },
             quantity := 1 } : CartLine))]
        { creditCardToken := "", refillOnCheckout := false,
          minAmount := 0, maxAmount := 0 }
        "" 1 "p" none).2.1.committed.orderItems.filter
          (fun it => decide (it.orderId = 1))).length = 3) ∧
    ((checkoutDone initWorker
        ⟨{ credit := 2000
           transactions := [{ value := 2000, provider := none,
                              providerChargeId := none,
                              telegramChargeId := none, refunded := false,
                              orderId := none }]
           orders := [], orderItems := [] },
         { credit := 2000
           transactions := [{ value := 2000, provider := none,
                              providerChargeId := none,
                              telegramChargeId := none, refunded := false,
                              orderId := none }]
           orders := [], orderItems := [] }⟩
        [((10 : Int),
          ({ product := { id := 1, name := "A", description := "",
                          price := some 500, deleted := false },
             quantity := 2 } : CartLine)),
         ((11 : Int),
          ({ product := { id := 2, name := "B", description := "",
                          price := some 300, deleted := false },
             quantity := 1 } : CartLine))]
        { creditCardToken := "", refillOnCheckout := false,
          minAmount := 0, maxAmount := 0 }
        "" 1 "p" none).2.1.committed.credit = (700 : Int)) := by
  have h := c2_done_persists_order_items_txn initWorker
    { credit := 2000
      transactions := [{ value := 2000, provider := none,
                         providerChargeId := none,
                         telegramChargeId := none, refunded := false,
                         orderId := none }]
      orders := [], orderItems := [] }
    [((10 : Int),
      ({ product := { id := 1, name := "A", description := "",
                      price := some 500, deleted := false },
         quantity := 2 } : CartLine)),
     ((11 : Int),
      ({ product := { id := 2, name := "B", description := "",
                      price := some 300, deleted := false },
         quantity := 1 } : CartLine))]
    { creditCardToken := "", refillOnCheckout := false,
      minAmount := 0, maxAmount := 0 }
    "" 1 "p" none
    (by decide) (by decide) (by decide) (by decide) (by decide)
  refine ⟨by decide, ?_, ?_⟩
  · rw [h.2.1, h.2.2.1]
    decide
  · rw [h.2.2.2.2]
    decide

/-- C3: when the user's credit is below the cart total and the top-up
step cannot make up the shortfall — refill unavailable (no credit-card
token or refill-on-checkout disabled), shortfall outside the configured
card range, or the top-up cancelled/never completed (`outcome = none`) —
the checkout attempt aborts atomically: the committed database state is
unchanged (zero Order, OrderItem and Transaction rows persisted, credit
untouched), the session is rolled back to it, and no commit happened
during the attempt. -/
theorem c3_insufficient_credit_aborts (w : WorkerState) (s0 : DBState)
    (cart : Cart) (cfg : CheckoutConfig) (notes : String) (oid : Int)
    (pl : String) (outcome : Option SuccessfulPayment)
    (hshort : s0.credit < getCartValue cart)
    (habort : ¬ (cfg.creditCardToken ≠ "" ∧ cfg.refillOnCheckout = true ∧
          cfg.minAmount ≤ getCartValue cart - s0.credit ∧
          getCartValue cart - s0.credit ≤ cfg.maxAmount) ∨
        outcome = none) :
    ((checkoutDone w ⟨s0, s0⟩ cart cfg notes oid pl outcome).2.1.committed = s0) ∧
    ((checkoutDone w ⟨s0, s0⟩ cart cfg notes oid pl outcome).2.1.current = s0) ∧
    ((checkoutDone w ⟨s0, s0⟩ cart cfg notes oid pl outcome).2.2 = []) := by
  unfold checkoutDone
  dsimp only
  rw [if_pos (by omega : getCartValue cart - s0.credit > 0)]
  rcases habort with hno | hnone
  · rw [if_neg hno]
    dsimp only
    rw [if_pos hshort]
    exact ⟨rfl, rfl, rfl⟩
  · subst hnone
    by_cases hc : cfg.creditCardToken ≠ "" ∧ cfg.refillOnCheckout = true ∧
        cfg.minAmount ≤ getCartValue cart - s0.credit ∧
        getCartValue cart - s0.credit ≤ cfg.maxAmount
    · rw [if_pos hc]
      unfold makePayment
      dsimp only
      rw [if_pos hshort]
      exact ⟨rfl, rfl, rfl⟩
    · rw [if_neg hc]
      dsimp only
      rw [if_pos hshort]
      exact ⟨rfl, rfl, rfl⟩

/-- Witness for C3 at Scenario A: cart total 1300 against credit 1000
with refill disabled (empty credit-card token) leaves the committed state
— credit 1000, no orders — untouched, with no commit during the
attempt. -/
theorem c3_insufficient_credit_witness :
    (((1000 : Int) < getCartValue
        [((10 : Int),
          ({ product := { id := 1, name := "A", description := "",
                          price := some 500, deleted := false },
             quantity := 2 } : CartLine)),
         ((11 : Int),
          ({ product := { id := 2, name := "B", description := "",
                          price := some 300, deleted := false },
             quantity := 1 } : CartLine))])) ∧
    ((checkoutDone initWorker
        ⟨{ credit := 1000
           transactions := [{ value := 1000, provider := none,
                              providerChargeId := none,
                              telegramChargeId := none, refunded := false,
                              orderId := none }]
           orders := [], orderItems := [] },
         { credit := 1000
           transactions := [{ value := 1000, provider := none,
                              providerChargeId := none,
                              telegramChargeId := none, refunded := false,
                              orderId := none }]
           orders := [], orderItems := [] }⟩
        [((10 : Int),
          ({ product := { id := 1, name := "A", description := "",
                          price := some 500, deleted := false },
             quantity := 2 } : CartLine)),
         ((11 : Int),
          ({ product := { id := 2, name := "B", description := "",
                          price := some 300, deleted := false },
             quantity := 1 } : CartLine))]
        { creditCardToken := "", refillOnCheckout := true,
          minAmount := 0, maxAmount := 100000 }
        "" 1 "p" none).2.1.committed =
      { credit := 1000
        transactions := [{ value := 1000, provider := none,
                           providerChargeId := none,
                           telegramChargeId := none, refunded := false,
                           orderId := none }]
        orders := [], orderItems := [] }) ∧
    ((checkoutDone initWorker
        ⟨{ credit := 1000
           transactions := [{ value := 1000, provider := none,
                              providerChargeId := none,
                              telegramChargeId := none, refunded := false,
                              orderId := none }]
           orders := [], orderItems := [] },
         { credit := 1000
           transactions := [{ value := 1000, provider := none,
                              providerChargeId := none,
                              telegramChargeId := none, refunded := false,
                              orderId := none }]
           orders := [], orderItems := [] }⟩
        [((10 : Int),
          ({ product := { id := 1, name := "A", description := "",
                          price := some 500, deleted := false },
             quantity := 2 } : CartLine)),
         ((11 : Int),
          ({ product := { id := 2, name := "B", description := "",
                          price := some 300, deleted := false },
             quantity := 1 } : CartLine))]
        { creditCardToken := "", refillOnCheckout := true,
          minAmount := 0, maxAmount := 100000 }
        "" 1 "p" none).2.2 = []) := by
  have h := c3_insufficient_credit_aborts initWorker
    { credit := 1000
      transactions := [{ value := 1000, provider := none,
                         providerChargeId := none,
                         telegramChargeId := none, refunded := false,
                         orderId := none }]
      orders := [], orderItems := [] }
    [((10 : Int),
      ({ product := { id := 1, name := "A", description := "",
                      price := some 500, deleted := false },
         quantity := 2 } : CartLine)),
     ((11 : Int),
      ({ product := { id := 2, name := "B", description := "",
                      price := some 300, deleted := false },
         quantity := 1 } : CartLine))]
    { creditCardToken := "", refillOnCheckout := true,
      minAmount := 0, maxAmount := 100000 }
    "" 1 "p" none (by decide) (Or.inl (by decide))
  exact ⟨by decide, h.1, h.2.2⟩

end Greed
